import Mathlib

/-!
Shallow embedding of the Infineon Ethernet Connection Manager (ECM),
`source/cy_ecm.c`, for checking the natural-language specification against
the code.

Modelling conventions:
* C pointers passed in as handles are `Option EcmObject` (`none` = NULL);
  output pointers are modelled by `Option`-valued components of the result
  (`none` = the function never wrote through the pointer), with a `Bool`
  parameter standing for "the caller passed a non-NULL output pointer" where
  the C code checks it.
* External collaborators (RTOS mutexes/threads, malloc, the network stack,
  the PHY driver) are oracles passed as parameters: a `Bool` for a single
  call that can succeed or fail, a function `Nat → Option _` for a call made
  repeatedly inside a polling loop (argument = number of the poll, `none` =
  the call returned an error / no value yet).
* Machine integers hold small bounded values here (milliseconds counters up
  to 10000, array indices 0/1), far below any overflow, so `Nat` is used.
* The file-scope static state of `cy_ecm.c` is the structure `EcmGlobal`;
  a `cy_ecm_object_t` is `EcmObject`.  Each API function takes the global
  state and returns the updated one; calls into the network stack are logged
  in order in a `List NwCall` where a claim is about such side effects.
* Bounded `while` loops of the C code are translated with a fuel argument
  that strictly dominates the loop's own bound (the translated loop still
  tests the C loop condition, so the fuel never decides the result); the one
  unbounded loop in the source, the DHCP address wait in `cy_ecm_connect`,
  is translated with genuine fuel and `Option` result (`none` = the loop has
  not exited after `fuel` iterations).
-/

/-- `#define DHCP_TIMEOUT_COUNT (6000)` (cy_ecm.c:69). -/
def DHCP_TIMEOUT_COUNT : Nat := 6000

/-- `#define CY_ECM_ETH_INTERFACE_MAX (2)` (cy_ecm.c:70). -/
def CY_ECM_ETH_INTERFACE_MAX : Nat := 2

/-- `#define WAIT_CHECK_ETHERNET_PHY_STATUS (100)` ms (cy_ecm.c:72). -/
def WAIT_CHECK_ETHERNET_PHY_STATUS : Nat := 100

/-- `#define RETRY_WAIT_TIME_GET_IP_ADDR (10)` ms (cy_ecm.c:73). -/
def RETRY_WAIT_TIME_GET_IP_ADDR : Nat := 10

/-- `#define MAX_WAIT_ETHERNET_PHY_STATUS (10000)` ms (eth_internal.h:55). -/
def MAX_WAIT_ETHERNET_PHY_STATUS : Nat := 10000

/-- `#define CY_ECM_MAXIMUM_CALLBACKS_COUNT (3)` (cy_ecm.c:83). -/
def CY_ECM_MAXIMUM_CALLBACKS_COUNT : Nat := 3

/-- Fuel for the translated bounded PHY-status loops.  The loop condition
`total_wait_time < MAX_WAIT_ETHERNET_PHY_STATUS` stops them after at most
100 polls (total grows by 100 each poll), so 101 iterations of fuel are
never exhausted; the loop condition alone decides the result. -/
def LINK_WAIT_FUEL : Nat := 101

/-- The `cy_rslt_t` values produced by `cy_ecm.c` (from cy_ecm_error.h names
used in the source).  `CY_RSLT_NETWORK_GENERIC_ERROR` stands for any network
stack error code that `cy_ecm_connect` passes through unmapped from
`cy_network_ip_up`. -/
inductive CyRslt where
  | CY_RSLT_SUCCESS
  | CY_RSLT_ECM_INIT_ERROR
  | CY_RSLT_ECM_NW_INIT_ERROR
  | CY_RSLT_ECM_MUTEX_ERROR
  | CY_RSLT_MODULE_ECM_NOT_INITIALIZED
  | CY_RSLT_MODULE_ECM_BADARG
  | CY_RSLT_ECM_ERROR_NOMEM
  | CY_RSLT_ECM_ERROR
  | CY_RSLT_MODULE_ECM_ALREADY_CONNECTED
  | CY_RSLT_MODULE_ECM_NOT_CONNECTED
  | CY_RSLT_ECM_STATIC_IP_NOT_SUPPORTED
  | CY_RSLT_ECM_INTERFACE_ERROR
  | CY_RSLT_MODULE_ECM_ERROR_STARTING_DHCP
  | CY_RSLT_ECM_DHCP_TIMEOUT
  | CY_RSLT_ECM_IP_ADDR_ERROR
  | CY_RSLT_NETWORK_GENERIC_ERROR
  deriving DecidableEq, Repr

/-- The events of `cy_ecm_event_t` dispatched by the library. -/
inductive cy_ecm_event where
  | CY_ECM_EVENT_CONNECTED
  | CY_ECM_EVENT_DISCONNECTED
  | CY_ECM_EVENT_IP_CHANGED
  deriving DecidableEq, Repr

/-- Calls the ECM makes into the network-stack collaborator, recorded in
program order where a claim is about them. -/
inductive NwCall where
  | cy_network_init
  | cy_network_deinit
  | cy_network_add_nw_interface
  | cy_network_register_ip_change_cb
  | cy_network_ip_up
  | cy_network_ip_down
  | cy_network_remove_nw_interface
  deriving DecidableEq, Repr

/-- Outcome of a `cy_network_ip_up` call, as `cy_ecm_connect` distinguishes
it (cy_ecm.c:967-984). -/
inductive NwIpUpResult where
  | success
  | errorStartingDhcp
  | dhcpWaitTimeout
  | otherFailure
  deriving DecidableEq, Repr

/-- Numeric stand-in for `CY_ECM_IP_VER_V4`.  The public header defining the
enum is not part of src/; no claim depends on the encoding, only on equality
tests against this tag and on the all-zero `memset` write. -/
def CY_ECM_IP_VER_V4 : Nat := 4

/-- Numeric stand-in for `CY_ECM_IP_VER_V6` (distinct from the V4 tag). -/
def CY_ECM_IP_VER_V6 : Nat := 6

/-- A written `cy_ecm_ip_address_t`: the version tag byte and the IPv4 word.
`memset(ip_addr, 0, ...)` produces `{ version := 0, v4 := 0 }`. -/
structure cy_ecm_ip_address where
  version : Nat
  v4 : Nat
  deriving DecidableEq, Repr

/-- The caller-supplied static IP configuration (`cy_ecm_ip_setting_t`):
`cy_ecm_connect` only inspects `gateway.version` and copies the three IPv4
words (cy_ecm.c:906-923). -/
structure cy_ecm_ip_setting where
  gateway_version : Nat
  ip_address_v4 : Nat
  gateway_v4 : Nat
  netmask_v4 : Nat
  deriving DecidableEq, Repr

/-- `cy_ecm_phy_callbacks_t`: each field records whether the corresponding
function pointer is non-NULL (cy_ecm.c:354-362 validates all nine). -/
structure cy_ecm_phy_callbacks where
  phy_init : Bool
  phy_configure : Bool
  phy_reset : Bool
  phy_discover : Bool
  phy_enable_ext_reg : Bool
  phy_get_auto_neg_status : Bool
  phy_get_link_partner_cap : Bool
  phy_get_linkspeed : Bool
  phy_get_linkstatus : Bool
  deriving DecidableEq, Repr

/-- Read slot `i` of a two-entry static `bool` array
(`is_ethernet_initiated` / `is_ethernet_link_up`, indices 0 and 1). -/
def getIdx (a : Bool × Bool) (i : Nat) : Bool :=
  if i = 0 then a.1 else a.2

/-- Write slot `i` of a two-entry static `bool` array. -/
def setIdx (a : Bool × Bool) (i : Nat) (b : Bool) : Bool × Bool :=
  if i = 0 then (b, a.2) else (a.1, b)

/-- The file-scope static state of `cy_ecm.c` (cy_ecm.c:116-130). -/
structure EcmGlobal where
  is_ecm_initialized : Bool
  is_tcp_initialized : Bool
  is_ethernet_initiated : Bool × Bool
  is_ethernet_link_up : Bool × Bool
  is_ecm_thread_created : Nat
  ecm_event_handler : List (Option Nat)
  deriving DecidableEq, Repr

/-- A `cy_ecm_object_t` handle (cy_ecm.c:100-111); `iface_context` records
whether the handle currently owns a network-stack interface context. -/
structure EcmObject where
  eth_idx : Nat
  isobjinitialized : Bool
  network_up : Bool
  iface_context : Bool
  deriving DecidableEq, Repr

/-- `invoke_app_callbacks` (cy_ecm.c:135-146): deliver `ev` to every
non-NULL slot of the handler array, in slot order.  Callbacks are identified
by a `Nat`. -/
def invoke_app_callbacks : List (Option Nat) → cy_ecm_event → List (Nat × cy_ecm_event)
  | [], _ => []
  | some c :: rest, ev => (c, ev) :: invoke_app_callbacks rest ev
  | none :: rest, ev => invoke_app_callbacks rest ev

/-- Which interface one iteration of `ecm_event_thread_func` evaluates
(cy_ecm.c:178, 207): ETH0 whenever it is initiated, else ETH1 if initiated,
else none. -/
def polledInterface (initiated : Bool × Bool) : Option Nat :=
  if getIdx initiated 0 = true then some 0
  else if getIdx initiated 1 = true then some 1
  else none

/-- The edge-triggered body run for an evaluated interface inside
`ecm_event_thread_func` (cy_ecm.c:181-205 resp. 210-233).  `phy_result` is
the `phy_get_linkstatus` outcome for this iteration (`none` = the driver
returned an error).  Returns the updated `is_ethernet_link_up` pair and the
callback deliveries made. -/
def ecm_monitor_eval (idx : Nat) (link_up : Bool × Bool) (phy_result : Option Nat)
    (handlers : List (Option Nat)) : (Bool × Bool) × List (Nat × cy_ecm_event) :=
  match phy_result with
  | none => (link_up, [])
  | some linkstatus =>
    if linkstatus = 1 then
      if getIdx link_up idx = false then
        (setIdx link_up idx true, invoke_app_callbacks handlers cy_ecm_event.CY_ECM_EVENT_CONNECTED)
      else (link_up, [])
    else
      if getIdx link_up idx = true then
        (setIdx link_up idx false, invoke_app_callbacks handlers cy_ecm_event.CY_ECM_EVENT_DISCONNECTED)
      else (link_up, [])

/-- One iteration of the link-monitor loop `ecm_event_thread_func`
(cy_ecm.c:176-236).  `phy idx` is this iteration's `phy_get_linkstatus`
outcome for interface `idx`. -/
def ecm_event_thread_iter (initiated link_up : Bool × Bool) (phy : Nat → Option Nat)
    (handlers : List (Option Nat)) : (Bool × Bool) × List (Nat × cy_ecm_event) :=
  match polledInterface initiated with
  | some idx => ecm_monitor_eval idx link_up (phy idx) handlers
  | none => (link_up, [])

/-- `cy_ecm_init` (cy_ecm.c:239-283).  `network_init_ok` / `mutex_init_ok`
are the outcomes of `cy_network_init` and `cy_rtos_init_mutex2`. -/
def cy_ecm_init (g : EcmGlobal) (network_init_ok mutex_init_ok : Bool) :
    CyRslt × EcmGlobal × List NwCall :=
  if g.is_ecm_initialized = true then
    (CyRslt.CY_RSLT_ECM_INIT_ERROR, g, [])
  else if g.is_tcp_initialized = false ∧ network_init_ok = false then
    (CyRslt.CY_RSLT_ECM_NW_INIT_ERROR, g, [NwCall.cy_network_init])
  else
    let calls1 := if g.is_tcp_initialized = false then [NwCall.cy_network_init] else []
    let g1 := { g with is_tcp_initialized := true }
    if mutex_init_ok = false then
      (CyRslt.CY_RSLT_ECM_MUTEX_ERROR, { g1 with is_tcp_initialized := false },
        calls1 ++ [NwCall.cy_network_deinit])
    else
      (CyRslt.CY_RSLT_SUCCESS, { g1 with is_ecm_initialized := true }, calls1)

/-- `cy_ecm_ethif_init` (cy_ecm.c:313-566).  Boolean oracles stand for the
outcomes of, in order: the global mutex acquire, `malloc`, the object-mutex
creation, `cy_eth_driver_initialization`, and `cy_rtos_create_thread`.
`eth0_enabled` / `eth1_enabled` are the compile-time configurator switches
`eth_0_ENABLED` / `eth_1_ENABLED`.  Returns the result, the new global
state, and whether a live handle was produced (`false` on every error path:
the `exit:` label frees the object, cy_ecm.c:544-554). -/
def cy_ecm_ethif_init (g : EcmGlobal) (eth_idx : Nat) (ecm_handle_provided : Bool)
    (phy_callbacks : Option cy_ecm_phy_callbacks) (eth0_enabled eth1_enabled : Bool)
    (mutex_ok malloc_ok obj_mutex_ok driver_ok thread_create_ok : Bool) :
    CyRslt × EcmGlobal × Bool :=
  -- code: ecm_handle == NULL || eth_idx >= CY_ECM_INTERFACE_INVALID
  if ecm_handle_provided = false ∨ CY_ECM_ETH_INTERFACE_MAX ≤ eth_idx then
    (CyRslt.CY_RSLT_MODULE_ECM_BADARG, g, false)
  else if eth_idx = 1 ∧ eth1_enabled = false then
    (CyRslt.CY_RSLT_MODULE_ECM_BADARG, g, false)
  else if eth_idx ≠ 1 ∧ eth0_enabled = false then
    (CyRslt.CY_RSLT_MODULE_ECM_BADARG, g, false)
  else
    match phy_callbacks with
    | none => (CyRslt.CY_RSLT_MODULE_ECM_BADARG, g, false)
    | some cb =>
      if (cb.phy_init && cb.phy_configure && cb.phy_discover && cb.phy_enable_ext_reg &&
          cb.phy_get_auto_neg_status && cb.phy_get_link_partner_cap &&
          cb.phy_get_linkspeed && cb.phy_get_linkstatus && cb.phy_reset) = false then
        (CyRslt.CY_RSLT_MODULE_ECM_BADARG, g, false)
      else if g.is_ecm_initialized = false then
        (CyRslt.CY_RSLT_MODULE_ECM_NOT_INITIALIZED, g, false)
      else if mutex_ok = false then
        (CyRslt.CY_RSLT_ECM_MUTEX_ERROR, g, false)
      else if getIdx g.is_ethernet_initiated eth_idx = true then
        (CyRslt.CY_RSLT_ECM_INIT_ERROR, g, false)
      else if malloc_ok = false then
        (CyRslt.CY_RSLT_ECM_ERROR_NOMEM, g, false)
      else if obj_mutex_ok = false then
        (CyRslt.CY_RSLT_ECM_MUTEX_ERROR, g, false)
      else if driver_ok = false then
        (CyRslt.CY_RSLT_ECM_ERROR, g, false)
      else
        -- cy_ecm.c:512: is_ethernet_initiated[eth_idx] = true, before the
        -- thread-creation step; the exit: path never clears it again.
        let g1 := { g with is_ethernet_initiated := setIdx g.is_ethernet_initiated eth_idx true }
        if g1.is_ecm_thread_created = 0 ∧ thread_create_ok = false then
          (CyRslt.CY_RSLT_ECM_ERROR, g1, false)
        else
          (CyRslt.CY_RSLT_SUCCESS,
            { g1 with is_ecm_thread_created := g1.is_ecm_thread_created + 1 }, true)

/-- The PHY link-wait loop shared verbatim by `cy_ecm_connect`
(cy_ecm.c:941-954) and `cy_ecm_get_link_status` (cy_ecm.c:1256-1270):
`while (total_wait_time < MAX_WAIT_ETHERNET_PHY_STATUS)` polling
`phy_get_linkstatus` and adding `WAIT_CHECK_ETHERNET_PHY_STATUS` per poll.
`phy i` is poll number `i`'s outcome (`none` = driver error).  Returns the
final `total_wait_time` and whether the loop broke out on link-up. -/
def linkWaitLoop (phy : Nat → Option Nat) : Nat → Nat → Nat → Nat × Bool
  | _, total, 0 => (total, false)
  | i, total, Nat.succ k =>
    if total < MAX_WAIT_ETHERNET_PHY_STATUS then
      match phy i with
      | some s =>
        if s = 1 then (total, true)
        else linkWaitLoop phy (i + 1) (total + WAIT_CHECK_ETHERNET_PHY_STATUS) k
      | none => linkWaitLoop phy (i + 1) (total + WAIT_CHECK_ETHERNET_PHY_STATUS) k
    else (total, false)

/-- The DHCP address-wait loop of `cy_ecm_connect` (cy_ecm.c:988-1010):
`while (true)` polling `cy_network_get_ip_address`, breaking only when it
succeeds, adding `RETRY_WAIT_TIME_GET_IP_ADDR` to `total_wait_time` per
failed poll.  `ip_at i` is poll `i`'s outcome.  The loop has no exit of its
own on timeout, so it is translated with genuine fuel: `none` means the loop
is still running after `fuel` polls; `some (v, total)` means it broke with
address `v` at `total_wait_time = total`. -/
def dhcpWaitLoop (ip_at : Nat → Option Nat) : Nat → Nat → Nat → Option (Nat × Nat)
  | _, _, 0 => none
  | i, total, Nat.succ fuel =>
    match ip_at i with
    | some v => some (v, total)
    | none => dhcpWaitLoop ip_at (i + 1) (total + RETRY_WAIT_TIME_GET_IP_ADDR) fuel

/-- Tail of `cy_ecm_connect` from the `cy_network_ip_up` call on
(cy_ecm.c:967-1024), entered with the interface attached and the IP-change
callback registered (hence the two leading entries of each call log). -/
def cy_ecm_connect_ip_up (g : EcmGlobal) (obj : EcmObject) (ip_up_result : NwIpUpResult)
    (ip_at : Nat → Option Nat) (fuel : Nat) :
    Option (CyRslt × EcmGlobal × Option EcmObject × List NwCall × Option cy_ecm_ip_address) :=
  match ip_up_result with
  | NwIpUpResult.success =>
    match dhcpWaitLoop ip_at 0 0 fuel with
    | none => none
    | some (v, total) =>
      -- cy_ecm.c:1011: the timeout test runs only after the loop broke, and
      -- compares the millisecond counter against DHCP_TIMEOUT_COUNT (6000).
      if DHCP_TIMEOUT_COUNT < total then
        some (CyRslt.CY_RSLT_ECM_DHCP_TIMEOUT, g, some obj,
          [NwCall.cy_network_add_nw_interface, NwCall.cy_network_register_ip_change_cb,
           NwCall.cy_network_ip_up, NwCall.cy_network_ip_down,
           NwCall.cy_network_remove_nw_interface],
          some { version := CY_ECM_IP_VER_V4, v4 := v })
      else
        some (CyRslt.CY_RSLT_SUCCESS, g, some { obj with network_up := true },
          [NwCall.cy_network_add_nw_interface, NwCall.cy_network_register_ip_change_cb,
           NwCall.cy_network_ip_up],
          some { version := CY_ECM_IP_VER_V4, v4 := v })
  | NwIpUpResult.errorStartingDhcp =>
    some (CyRslt.CY_RSLT_MODULE_ECM_ERROR_STARTING_DHCP, g, some obj,
      [NwCall.cy_network_add_nw_interface, NwCall.cy_network_register_ip_change_cb,
       NwCall.cy_network_ip_up, NwCall.cy_network_remove_nw_interface], none)
  | NwIpUpResult.dhcpWaitTimeout =>
    some (CyRslt.CY_RSLT_ECM_DHCP_TIMEOUT, g, some obj,
      [NwCall.cy_network_add_nw_interface, NwCall.cy_network_register_ip_change_cb,
       NwCall.cy_network_ip_up, NwCall.cy_network_remove_nw_interface], none)
  | NwIpUpResult.otherFailure =>
    some (CyRslt.CY_RSLT_NETWORK_GENERIC_ERROR, g, some obj,
      [NwCall.cy_network_add_nw_interface, NwCall.cy_network_register_ip_change_cb,
       NwCall.cy_network_ip_up, NwCall.cy_network_remove_nw_interface], none)

/-- Middle of `cy_ecm_connect` after the successful
`cy_network_add_nw_interface` and `cy_network_register_ip_change_cb` calls
(cy_ecm.c:937-965): the link wait when the cached flag is not yet up. -/
def cy_ecm_connect_after_attach (g : EcmGlobal) (obj : EcmObject)
    (phy : Nat → Option Nat) (ip_up_result : NwIpUpResult)
    (ip_at : Nat → Option Nat) (fuel : Nat) :
    Option (CyRslt × EcmGlobal × Option EcmObject × List NwCall × Option cy_ecm_ip_address) :=
  -- code: if (is_ethernet_link_up[eth_idx] != true) { wait loop }
  if getIdx g.is_ethernet_link_up obj.eth_idx = true then
    cy_ecm_connect_ip_up g obj ip_up_result ip_at fuel
  else
    if MAX_WAIT_ETHERNET_PHY_STATUS ≤ (linkWaitLoop phy 0 0 LINK_WAIT_FUEL).1 then
      -- cy_ecm.c:956-961: link timeout; goto exit with no rollback of the
      -- attach, CY_RSLT_ECM_ERROR, link_up flag untouched.
      some (CyRslt.CY_RSLT_ECM_ERROR, g, some obj,
        [NwCall.cy_network_add_nw_interface, NwCall.cy_network_register_ip_change_cb], none)
    else
      cy_ecm_connect_ip_up
        { g with is_ethernet_link_up := setIdx g.is_ethernet_link_up obj.eth_idx true }
        obj ip_up_result ip_at fuel

/-- `cy_ecm_connect` (cy_ecm.c:856-1037).  `mutex_ok` is the global mutex
acquire outcome, `add_nw_ok` the `cy_network_add_nw_interface` outcome,
`phy` the per-poll `phy_get_linkstatus` oracle of the link wait, `ip_up_result`
the `cy_network_ip_up` outcome, `ip_at` the per-poll
`cy_network_get_ip_address` oracle of the DHCP wait.  The last component is
what was written through `ip_addr`. -/
def cy_ecm_connect (g : EcmGlobal) (ecm_handle : Option EcmObject) (mutex_ok : Bool)
    (ecm_static_ip_addr : Option cy_ecm_ip_setting) (add_nw_ok : Bool)
    (phy : Nat → Option Nat) (ip_up_result : NwIpUpResult)
    (ip_at : Nat → Option Nat) (fuel : Nat) :
    Option (CyRslt × EcmGlobal × Option EcmObject × List NwCall × Option cy_ecm_ip_address) :=
  match ecm_handle with
  | none => some (CyRslt.CY_RSLT_MODULE_ECM_BADARG, g, none, [], none)
  | some obj =>
    if g.is_ecm_initialized = false then
      some (CyRslt.CY_RSLT_MODULE_ECM_NOT_INITIALIZED, g, some obj, [], none)
    else if mutex_ok = false then
      some (CyRslt.CY_RSLT_ECM_MUTEX_ERROR, g, some obj, [], none)
    else if obj.isobjinitialized = false then
      some (CyRslt.CY_RSLT_MODULE_ECM_NOT_INITIALIZED, g, some obj, [], none)
    else if obj.network_up = true then
      some (CyRslt.CY_RSLT_MODULE_ECM_ALREADY_CONNECTED, g, some obj, [], none)
    else
      match ecm_static_ip_addr with
      | some s =>
        if s.gateway_version = CY_ECM_IP_VER_V4 then
          if add_nw_ok = false then
            some (CyRslt.CY_RSLT_ECM_INTERFACE_ERROR, g, some obj,
              [NwCall.cy_network_add_nw_interface], none)
          else
            cy_ecm_connect_after_attach g { obj with iface_context := true }
              phy ip_up_result ip_at fuel
        else
          some (CyRslt.CY_RSLT_ECM_STATIC_IP_NOT_SUPPORTED, g, some obj, [], none)
      | none =>
        if add_nw_ok = false then
          some (CyRslt.CY_RSLT_ECM_INTERFACE_ERROR, g, some obj,
            [NwCall.cy_network_add_nw_interface], none)
        else
          cy_ecm_connect_after_attach g { obj with iface_context := true }
            phy ip_up_result ip_at fuel

/-- The slot-filling loop of `cy_ecm_register_event_callback`
(cy_ecm.c:1141-1148): first NULL slot gets the callback, then `break`;
a full array is left unchanged. -/
def register_scan : List (Option Nat) → Nat → List (Option Nat)
  | [], _ => []
  | none :: rest, cb => some cb :: rest
  | some c :: rest, cb => some c :: register_scan rest cb

/-- The removal loop of `cy_ecm_deregister_event_callback`
(cy_ecm.c:1201-1209): first slot equal to the callback is zeroed, then exit;
no match leaves the array unchanged. -/
def deregister_scan : List (Option Nat) → Nat → List (Option Nat)
  | [], _ => []
  | none :: rest, cb => none :: deregister_scan rest cb
  | some c :: rest, cb =>
    if c = cb then none :: rest else some c :: deregister_scan rest cb

/-- `cy_ecm_register_event_callback` (cy_ecm.c:1105-1163).  Note the `exit:`
label assigns `result` from the mutex release (cy_ecm.c:1151), so with a
working mutex every path past the acquire returns success. -/
def cy_ecm_register_event_callback (g : EcmGlobal) (ecm_handle : Option EcmObject)
    (event_callback : Option Nat) (mutex_ok : Bool) : CyRslt × EcmGlobal :=
  match ecm_handle, event_callback with
  | none, _ => (CyRslt.CY_RSLT_MODULE_ECM_BADARG, g)
  | some _, none => (CyRslt.CY_RSLT_MODULE_ECM_BADARG, g)
  | some obj, some cb =>
    if g.is_ecm_initialized = false then (CyRslt.CY_RSLT_MODULE_ECM_NOT_INITIALIZED, g)
    else if mutex_ok = false then (CyRslt.CY_RSLT_ECM_MUTEX_ERROR, g)
    else if obj.isobjinitialized = false then
      (CyRslt.CY_RSLT_SUCCESS, g)   -- error clobbered by the release result
    else
      (CyRslt.CY_RSLT_SUCCESS,
        { g with ecm_event_handler := register_scan g.ecm_event_handler cb })

/-- `cy_ecm_deregister_event_callback` (cy_ecm.c:1165-1223); the `exit:`
label likewise overwrites `result` with the mutex release outcome. -/
def cy_ecm_deregister_event_callback (g : EcmGlobal) (ecm_handle : Option EcmObject)
    (event_callback : Option Nat) (mutex_ok : Bool) : CyRslt × EcmGlobal :=
  match ecm_handle, event_callback with
  | none, _ => (CyRslt.CY_RSLT_MODULE_ECM_BADARG, g)
  | some _, none => (CyRslt.CY_RSLT_MODULE_ECM_BADARG, g)
  | some obj, some cb =>
    if g.is_ecm_initialized = false then (CyRslt.CY_RSLT_MODULE_ECM_NOT_INITIALIZED, g)
    else if mutex_ok = false then (CyRslt.CY_RSLT_ECM_MUTEX_ERROR, g)
    else if obj.isobjinitialized = false then
      (CyRslt.CY_RSLT_SUCCESS, g)
    else
      (CyRslt.CY_RSLT_SUCCESS,
        { g with ecm_event_handler := deregister_scan g.ecm_event_handler cb })

/-- `cy_ecm_get_ip_address` (cy_ecm.c:1291-1359).  `ip_addr_provided` is the
NULL check on the output pointer; `nw_get` the `cy_network_get_ip_address`
outcome.  Second component: what was written through `ip_addr`. -/
def cy_ecm_get_ip_address (g : EcmGlobal) (ecm_handle : Option EcmObject)
    (ip_addr_provided : Bool) (mutex_ok : Bool) (nw_get : Option Nat) :
    CyRslt × Option cy_ecm_ip_address :=
  match ecm_handle with
  | none => (CyRslt.CY_RSLT_MODULE_ECM_BADARG, none)
  | some obj =>
    if ip_addr_provided = false then (CyRslt.CY_RSLT_MODULE_ECM_BADARG, none)
    else if g.is_ecm_initialized = false then (CyRslt.CY_RSLT_MODULE_ECM_NOT_INITIALIZED, none)
    else if mutex_ok = false then (CyRslt.CY_RSLT_ECM_MUTEX_ERROR, none)
    else if obj.network_up = false then
      -- cy_ecm.c:1329: memset(ip_addr, 0, sizeof(cy_ecm_ip_address_t))
      (CyRslt.CY_RSLT_MODULE_ECM_NOT_CONNECTED, some { version := 0, v4 := 0 })
    else
      match nw_get with
      | none => (CyRslt.CY_RSLT_ECM_IP_ADDR_ERROR, none)
      | some v => (CyRslt.CY_RSLT_SUCCESS, some { version := CY_ECM_IP_VER_V4, v4 := v })

/-- `cy_ecm_get_link_status` (cy_ecm.c:1225-1289): the same bounded PHY
poll loop, then `*status = false` with a success result when the ceiling was
reached (cy_ecm.c:1272-1276), `*status = true` when the loop broke on
link-up.  Second component: what was written through `status`. -/
def cy_ecm_get_link_status (g : EcmGlobal) (ecm_handle : Option EcmObject)
    (status_provided : Bool) (mutex_ok : Bool) (phy : Nat → Option Nat) :
    CyRslt × Option Bool :=
  match ecm_handle with
  | none => (CyRslt.CY_RSLT_MODULE_ECM_BADARG, none)
  | some _ =>
    if status_provided = false then (CyRslt.CY_RSLT_MODULE_ECM_BADARG, none)
    else if g.is_ecm_initialized = false then (CyRslt.CY_RSLT_MODULE_ECM_NOT_INITIALIZED, none)
    else if mutex_ok = false then (CyRslt.CY_RSLT_ECM_MUTEX_ERROR, none)
    else
      if MAX_WAIT_ETHERNET_PHY_STATUS ≤ (linkWaitLoop phy 0 0 LINK_WAIT_FUEL).1 then
        (CyRslt.CY_RSLT_SUCCESS, some false)
      else
        (CyRslt.CY_RSLT_SUCCESS, some true)

/-- The poll loop of `cy_ecm_get_link_speed` (cy_ecm.c:1750-1769): same
bound and interval, but on a link-up reading it additionally queries
`phy_get_linkspeed` (oracle `speed_at`, `none` = that call failed, in which
case the loop keeps polling).  Returns the (duplex, speed) pair on success. -/
def linkSpeedLoop (phy : Nat → Option Nat) (speed_at : Nat → Option (Nat × Nat)) :
    Nat → Nat → Nat → Option (Nat × Nat)
  | _, _, 0 => none
  | i, total, Nat.succ k =>
    if total < MAX_WAIT_ETHERNET_PHY_STATUS then
      match phy i with
      | some s =>
        if s = 1 then
          match speed_at i with
          | some ds => some ds
          | none => linkSpeedLoop phy speed_at (i + 1) (total + WAIT_CHECK_ETHERNET_PHY_STATUS) k
        else linkSpeedLoop phy speed_at (i + 1) (total + WAIT_CHECK_ETHERNET_PHY_STATUS) k
      | none => linkSpeedLoop phy speed_at (i + 1) (total + WAIT_CHECK_ETHERNET_PHY_STATUS) k
    else none

/-- `cy_ecm_get_link_speed` (cy_ecm.c:1718-1785): exhausting the poll
ceiling yields `CY_RSLT_ECM_ERROR` (cy_ecm.c:1771), unlike
`cy_ecm_get_link_status`.  Second component: the (duplex, speed) written
through the output pointers. -/
def cy_ecm_get_link_speed (g : EcmGlobal) (ecm_handle : Option EcmObject)
    (out_provided : Bool) (mutex_ok : Bool) (phy : Nat → Option Nat)
    (speed_at : Nat → Option (Nat × Nat)) : CyRslt × Option (Nat × Nat) :=
  match ecm_handle with
  | none => (CyRslt.CY_RSLT_MODULE_ECM_BADARG, none)
  | some _ =>
    if out_provided = false then (CyRslt.CY_RSLT_MODULE_ECM_BADARG, none)
    else if g.is_ecm_initialized = false then (CyRslt.CY_RSLT_MODULE_ECM_NOT_INITIALIZED, none)
    else if mutex_ok = false then (CyRslt.CY_RSLT_ECM_MUTEX_ERROR, none)
    else
      match linkSpeedLoop phy speed_at 0 0 LINK_WAIT_FUEL with
      | some ds => (CyRslt.CY_RSLT_SUCCESS, some ds)
      | none => (CyRslt.CY_RSLT_ECM_ERROR, none)

/-! ## Helper lemmas -/

/-- The callback fan-out delivers the event once to each registered callback,
in slot order. -/
theorem invoke_app_callbacks_eq (handlers : List (Option Nat)) (ev : cy_ecm_event) :
    invoke_app_callbacks handlers ev = (handlers.filterMap id).map (fun c => (c, ev)) := by
  induction handlers with
  | nil => rfl
  | cons a rest ih => cases a <;> simp [invoke_app_callbacks, ih]

/-- If the PHY never reports link-up, the bounded link-wait loop runs until
`total_wait_time` reaches the 10 s ceiling and exits without breaking. -/
theorem linkWaitLoop_never_up (phy : Nat → Option Nat) (h : ∀ j, phy j ≠ some 1) :
    ∀ k i total, total ≤ MAX_WAIT_ETHERNET_PHY_STATUS →
      (MAX_WAIT_ETHERNET_PHY_STATUS - total) % WAIT_CHECK_ETHERNET_PHY_STATUS = 0 →
      MAX_WAIT_ETHERNET_PHY_STATUS ≤ total + WAIT_CHECK_ETHERNET_PHY_STATUS * k →
      linkWaitLoop phy i total k = (MAX_WAIT_ETHERNET_PHY_STATUS, false) := by
  intro k
  induction k with
  | zero =>
    intro i total h1 h2 h3
    simp only [MAX_WAIT_ETHERNET_PHY_STATUS, WAIT_CHECK_ETHERNET_PHY_STATUS] at h1 h2 h3 ⊢
    have ht : total = 10000 := by omega
    subst ht
    simp [linkWaitLoop]
  | succ k ih =>
    intro i total h1 h2 h3
    simp only [MAX_WAIT_ETHERNET_PHY_STATUS, WAIT_CHECK_ETHERNET_PHY_STATUS] at h1 h2 h3
    by_cases hlt : total < MAX_WAIT_ETHERNET_PHY_STATUS
    · have hlt10 : total < 10000 := by
        simpa [MAX_WAIT_ETHERNET_PHY_STATUS] using hlt
      cases hp : phy i with
      | none =>
        simp only [linkWaitLoop, if_pos hlt, hp]
        exact ih (i + 1) (total + WAIT_CHECK_ETHERNET_PHY_STATUS)
          (by simp only [MAX_WAIT_ETHERNET_PHY_STATUS, WAIT_CHECK_ETHERNET_PHY_STATUS]; omega)
          (by simp only [MAX_WAIT_ETHERNET_PHY_STATUS, WAIT_CHECK_ETHERNET_PHY_STATUS]; omega)
          (by simp only [MAX_WAIT_ETHERNET_PHY_STATUS, WAIT_CHECK_ETHERNET_PHY_STATUS]; omega)
      | some s =>
        have hs : ¬ s = 1 := by
          intro e
          exact h i (by rw [hp, e])
        simp only [linkWaitLoop, if_pos hlt, hp, if_neg hs]
        exact ih (i + 1) (total + WAIT_CHECK_ETHERNET_PHY_STATUS)
          (by simp only [MAX_WAIT_ETHERNET_PHY_STATUS, WAIT_CHECK_ETHERNET_PHY_STATUS]; omega)
          (by simp only [MAX_WAIT_ETHERNET_PHY_STATUS, WAIT_CHECK_ETHERNET_PHY_STATUS]; omega)
          (by simp only [MAX_WAIT_ETHERNET_PHY_STATUS, WAIT_CHECK_ETHERNET_PHY_STATUS]; omega)
    · have ht : total = MAX_WAIT_ETHERNET_PHY_STATUS := by
        simp only [MAX_WAIT_ETHERNET_PHY_STATUS] at hlt ⊢
        omega
      subst ht
      simp [linkWaitLoop, hlt]

/-- If `cy_network_get_ip_address` never succeeds, the DHCP wait loop never
exits, whatever the fuel. -/
theorem dhcpWaitLoop_none (ip_at : Nat → Option Nat) (h : ∀ j, ip_at j = none) :
    ∀ fuel i total, dhcpWaitLoop ip_at i total fuel = none := by
  intro fuel
  induction fuel with
  | zero => intro i total; rfl
  | succ fuel ih => intro i total; simp [dhcpWaitLoop, h i, ih]

/-- If the PHY never reports link-up, the link-speed loop exits with no
value. -/
theorem linkSpeedLoop_none (phy : Nat → Option Nat) (speed_at : Nat → Option (Nat × Nat))
    (h : ∀ j, phy j ≠ some 1) :
    ∀ k i total, linkSpeedLoop phy speed_at i total k = none := by
  intro k
  induction k with
  | zero => intro i total; rfl
  | succ k ih =>
    intro i total
    by_cases hlt : total < MAX_WAIT_ETHERNET_PHY_STATUS
    · cases hp : phy i with
      | none => simp [linkSpeedLoop, hlt, hp, ih]
      | some s =>
        have hs : ¬ s = 1 := by
          intro e
          exact h i (by rw [hp, e])
        simp [linkSpeedLoop, hlt, hp, hs, ih]
    · simp [linkSpeedLoop, hlt]

/-- A slot-full callback array is left unchanged by the register scan. -/
theorem register_scan_full (hs : List (Option Nat)) (cb : Nat)
    (h : ∀ x ∈ hs, x ≠ none) : register_scan hs cb = hs := by
  induction hs with
  | nil => rfl
  | cons a rest ih =>
    cases a with
    | none => exact absurd rfl (h none (by simp))
    | some c =>
      simp only [register_scan]
      rw [ih (fun x hx => h x (by simp [hx]))]

/-- The register scan fills exactly the first free slot. -/
theorem register_scan_first_free (p s : List (Option Nat)) (cb : Nat)
    (hp : ∀ x ∈ p, x ≠ none) :
    register_scan (p ++ none :: s) cb = p ++ some cb :: s := by
  induction p with
  | nil => rfl
  | cons a rest ih =>
    cases a with
    | none => exact absurd rfl (hp none (by simp))
    | some c =>
      simp only [List.cons_append, register_scan, List.append_eq]
      rw [ih (fun x hx => hp x (by simp [hx]))]

/-- Deregistering a callback held by no slot leaves the array unchanged. -/
theorem deregister_scan_absent (hs : List (Option Nat)) (cb : Nat)
    (h : ∀ x ∈ hs, x ≠ some cb) : deregister_scan hs cb = hs := by
  induction hs with
  | nil => rfl
  | cons a rest ih =>
    cases a with
    | none =>
      simp only [deregister_scan]
      rw [ih (fun x hx => h x (by simp [hx]))]
    | some c =>
      have hc : ¬ c = cb := by
        intro e
        exact (h (some c) (by simp)) (by rw [e])
      simp only [deregister_scan, if_neg hc]
      rw [ih (fun x hx => h x (by simp [hx]))]

/-! ## Sample states used by witnesses and concrete evaluations -/

/-- An active global state: manager initialized, ETH0 initiated and link up,
monitor thread running, no callbacks registered. -/
def gActive : EcmGlobal :=
  { is_ecm_initialized := true, is_tcp_initialized := true,
    is_ethernet_initiated := (true, false), is_ethernet_link_up := (true, false),
    is_ecm_thread_created := 1, ecm_event_handler := [none, none, none] }

/-- Like `gActive` but with the ETH0 link flag still down. -/
def gLinkDown : EcmGlobal :=
  { gActive with is_ethernet_link_up := (false, false) }

/-- A freshly created, not yet connected ETH0 handle. -/
def objIdle : EcmObject :=
  { eth_idx := 0, isobjinitialized := true, network_up := false, iface_context := false }

/-- An already connected ETH0 handle. -/
def objUp : EcmObject := { objIdle with network_up := true, iface_context := true }

/-- A zeroed global state, as the statics are at process start. -/
def gZero : EcmGlobal :=
  { is_ecm_initialized := false, is_tcp_initialized := false,
    is_ethernet_initiated := (false, false), is_ethernet_link_up := (false, false),
    is_ecm_thread_created := 0, ecm_event_handler := [none, none, none] }

/-- A phy-callback table with all nine function pointers present. -/
def phyCbAll : cy_ecm_phy_callbacks :=
  { phy_init := true, phy_configure := true, phy_reset := true, phy_discover := true,
    phy_enable_ext_reg := true, phy_get_auto_neg_status := true,
    phy_get_link_partner_cap := true, phy_get_linkspeed := true, phy_get_linkstatus := true }

/-! ## Claim theorems -/

/-- C4: a `cy_ecm_connect` call on a handle whose `network_up` flag is
already true returns `CY_RSLT_MODULE_ECM_ALREADY_CONNECTED` and performs no
network-stack call at all — no interface attach, no IP-change subscription,
no ip-up — and leaves both the handle and the global state unchanged. -/
theorem connect_already_connected (g : EcmGlobal) (obj : EcmObject)
    (h1 : g.is_ecm_initialized = true) (h2 : obj.isobjinitialized = true)
    (h3 : obj.network_up = true) (static_ip : Option cy_ecm_ip_setting)
    (add_nw_ok : Bool) (phy : Nat → Option Nat) (ipr : NwIpUpResult)
    (ip_at : Nat → Option Nat) (fuel : Nat) :
    cy_ecm_connect g (some obj) true static_ip add_nw_ok phy ipr ip_at fuel
      = some (CyRslt.CY_RSLT_MODULE_ECM_ALREADY_CONNECTED, g, some obj, [], none) := by
  simp [cy_ecm_connect, h1, h2, h3]

/-- Witness for C4 at a concrete connected handle. -/
theorem connect_already_connected_witness :
    gActive.is_ecm_initialized = true ∧ objUp.isobjinitialized = true ∧
    objUp.network_up = true ∧
    cy_ecm_connect gActive (some objUp) true none true (fun _ => some 1)
        NwIpUpResult.success (fun _ => some 5) 3
      = some (CyRslt.CY_RSLT_MODULE_ECM_ALREADY_CONNECTED, gActive, some objUp, [], none) :=
  ⟨rfl, rfl, rfl,
    connect_already_connected gActive objUp rfl rfl rfl none true
      (fun _ => some 1) NwIpUpResult.success (fun _ => some 5) 3⟩

/-- C8: `cy_ecm_get_ip_address` on a valid handle that is not connected
(`network_up` false) returns `CY_RSLT_MODULE_ECM_NOT_CONNECTED` and writes
an all-zero address structure through the output pointer. -/
theorem get_ip_address_not_connected_zeroes (g : EcmGlobal) (obj : EcmObject)
    (nw_get : Option Nat) (h1 : g.is_ecm_initialized = true)
    (h2 : obj.network_up = false) :
    cy_ecm_get_ip_address g (some obj) true true nw_get
      = (CyRslt.CY_RSLT_MODULE_ECM_NOT_CONNECTED, some { version := 0, v4 := 0 }) := by
  simp [cy_ecm_get_ip_address, h1, h2]

/-- Witness for C8 at a concrete unconnected handle. -/
theorem get_ip_address_not_connected_zeroes_witness :
    gActive.is_ecm_initialized = true ∧ objIdle.network_up = false ∧
    cy_ecm_get_ip_address gActive (some objIdle) true true (some 77)
      = (CyRslt.CY_RSLT_MODULE_ECM_NOT_CONNECTED, some { version := 0, v4 := 0 }) :=
  ⟨rfl, rfl, get_ip_address_not_connected_zeroes gActive objIdle (some 77) rfl rfl⟩

/-- C9: `cy_ecm_init` on an already active manager fails with
`CY_RSLT_ECM_INIT_ERROR` and changes nothing; on an inactive manager it
calls `cy_network_init` and creates the global mutex, and a mutex-creation
failure is rolled back by a `cy_network_deinit` call, returning
`CY_RSLT_ECM_MUTEX_ERROR` with the manager left inactive. -/
theorem cy_ecm_init_spec (g : EcmGlobal) :
    (∀ network_init_ok mutex_init_ok, g.is_ecm_initialized = true →
        cy_ecm_init g network_init_ok mutex_init_ok
          = (CyRslt.CY_RSLT_ECM_INIT_ERROR, g, [])) ∧
    (g.is_ecm_initialized = false → g.is_tcp_initialized = false →
        cy_ecm_init g true true
          = (CyRslt.CY_RSLT_SUCCESS,
             { g with is_tcp_initialized := true, is_ecm_initialized := true },
             [NwCall.cy_network_init])) ∧
    (g.is_ecm_initialized = false → g.is_tcp_initialized = false →
        cy_ecm_init g true false
          = (CyRslt.CY_RSLT_ECM_MUTEX_ERROR, { g with is_tcp_initialized := false },
             [NwCall.cy_network_init, NwCall.cy_network_deinit]) ∧
        ({ g with is_tcp_initialized := false } : EcmGlobal).is_ecm_initialized = false) := by
  refine ⟨?_, ?_, ?_⟩
  · intro network_init_ok mutex_init_ok h1
    simp [cy_ecm_init, h1]
  · intro h1 h2
    simp [cy_ecm_init, h1, h2]
  · intro h1 h2
    constructor
    · simp [cy_ecm_init, h1, h2]
    · simpa using h1

/-- Witness for C9 at the zeroed start state, taking the lock-failure arm. -/
theorem cy_ecm_init_spec_witness :
    gZero.is_ecm_initialized = false ∧ gZero.is_tcp_initialized = false ∧
    cy_ecm_init gZero true false
      = (CyRslt.CY_RSLT_ECM_MUTEX_ERROR, { gZero with is_tcp_initialized := false },
         [NwCall.cy_network_init, NwCall.cy_network_deinit]) :=
  ⟨rfl, rfl, ((cy_ecm_init_spec gZero).2.2 rfl rfl).1⟩

/-- C5: in a link-monitor iteration, for the interface it evaluates: a PHY
poll error leaves the flag and delivers nothing; link-up with the cached
flag down sets the flag and delivers exactly one `CY_ECM_EVENT_CONNECTED`
to every registered callback in slot order; link-down with the flag up sets
it false and delivers `CY_ECM_EVENT_DISCONNECTED` likewise; an unchanged
status leaves the flag and delivers nothing. -/
theorem ecm_monitor_edge_spec (initiated link_up : Bool × Bool)
    (phy : Nat → Option Nat) (handlers : List (Option Nat)) (idx : Nat)
    (hsel : polledInterface initiated = some idx) :
    (phy idx = none →
        ecm_event_thread_iter initiated link_up phy handlers = (link_up, [])) ∧
    (phy idx = some 1 → getIdx link_up idx = false →
        ecm_event_thread_iter initiated link_up phy handlers
          = (setIdx link_up idx true,
             (handlers.filterMap id).map
               (fun c => (c, cy_ecm_event.CY_ECM_EVENT_CONNECTED)))) ∧
    (phy idx = some 1 → getIdx link_up idx = true →
        ecm_event_thread_iter initiated link_up phy handlers = (link_up, [])) ∧
    (∀ s, phy idx = some s → s ≠ 1 → getIdx link_up idx = true →
        ecm_event_thread_iter initiated link_up phy handlers
          = (setIdx link_up idx false,
             (handlers.filterMap id).map
               (fun c => (c, cy_ecm_event.CY_ECM_EVENT_DISCONNECTED)))) ∧
    (∀ s, phy idx = some s → s ≠ 1 → getIdx link_up idx = false →
        ecm_event_thread_iter initiated link_up phy handlers = (link_up, [])) := by
  refine ⟨?_, ?_, ?_, ?_, ?_⟩
  · intro hp
    simp [ecm_event_thread_iter, hsel, ecm_monitor_eval, hp]
  · intro hp hf
    simp [ecm_event_thread_iter, hsel, ecm_monitor_eval, hp, hf, invoke_app_callbacks_eq]
  · intro hp ht
    simp [ecm_event_thread_iter, hsel, ecm_monitor_eval, hp, ht]
  · intro s hp hs ht
    simp [ecm_event_thread_iter, hsel, ecm_monitor_eval, hp, hs, ht, invoke_app_callbacks_eq]
  · intro s hp hs hf
    simp [ecm_event_thread_iter, hsel, ecm_monitor_eval, hp, hs, hf]

/-- Witness for C5: ETH0 initiated, flag down, PHY reports up, two
registered callbacks receive one Connected event each, in slot order. -/
theorem ecm_monitor_edge_spec_witness :
    polledInterface (true, false) = some 0 ∧
    ecm_event_thread_iter (true, false) (false, false) (fun _ => some 1)
        [some 7, none, some 9]
      = (setIdx (false, false) 0 true,
         (([some 7, none, some 9] : List (Option Nat)).filterMap id).map
           (fun c => (c, cy_ecm_event.CY_ECM_EVENT_CONNECTED))) :=
  ⟨by decide,
    (ecm_monitor_edge_spec (true, false) (false, false) (fun _ => some 1)
      [some 7, none, some 9] 0 (by decide)).2.1 rfl rfl⟩

/-- C6: whenever interface 0 is initiated, the iteration of the link-monitor
loop evaluates interface 0, never interface 1; consequently the iteration's
outcome does not depend on interface 1's PHY at all (at most one interface
is queried per iteration). -/
theorem monitor_polls_eth0_first (initiated : Bool × Bool)
    (h : getIdx initiated 0 = true) :
    polledInterface initiated = some 0 ∧ polledInterface initiated ≠ some 1 ∧
    ∀ link_up handlers phy phy', phy 0 = phy' 0 →
      ecm_event_thread_iter initiated link_up phy handlers
        = ecm_event_thread_iter initiated link_up phy' handlers := by
  have hp : polledInterface initiated = some 0 := by simp [polledInterface, h]
  refine ⟨hp, by simp [hp], ?_⟩
  intro link_up handlers phy phy' he
  simp [ecm_event_thread_iter, hp, he]

/-- Witness for C6 with both interfaces initiated: interface 0 wins. -/
theorem monitor_polls_eth0_first_witness :
    getIdx (true, true) 0 = true ∧
    polledInterface (true, true) = some 0 ∧ polledInterface (true, true) ≠ some 1 :=
  ⟨by decide, (monitor_polls_eth0_first (true, true) (by decide)).1,
    (monitor_polls_eth0_first (true, true) (by decide)).2.1⟩

/-- C7: with all slots occupied, registering another callback leaves every
slot unchanged and returns success (silently dropped); with a free slot,
registering occupies the first free slot and leaves the others unchanged;
deregistering a callback held by no slot is a successful no-op. -/
theorem callback_registry_spec (g : EcmGlobal) (obj : EcmObject)
    (h1 : g.is_ecm_initialized = true) (h2 : obj.isobjinitialized = true) :
    (∀ cb, (∀ x ∈ g.ecm_event_handler, x ≠ none) →
        cy_ecm_register_event_callback g (some obj) (some cb) true
          = (CyRslt.CY_RSLT_SUCCESS, g)) ∧
    (∀ cb p s, g.ecm_event_handler = p ++ none :: s → (∀ x ∈ p, x ≠ none) →
        cy_ecm_register_event_callback g (some obj) (some cb) true
          = (CyRslt.CY_RSLT_SUCCESS,
             { g with ecm_event_handler := p ++ some cb :: s })) ∧
    (∀ cb, (∀ x ∈ g.ecm_event_handler, x ≠ some cb) →
        cy_ecm_deregister_event_callback g (some obj) (some cb) true
          = (CyRslt.CY_RSLT_SUCCESS, g)) := by
  obtain ⟨gi, gt, gin, gl, gc, gh⟩ := g
  have h1' : gi = true := h1
  subst h1'
  refine ⟨?_, ?_, ?_⟩
  · intro cb hfull
    simp [cy_ecm_register_event_callback, h2, register_scan_full _ _ hfull]
  · intro cb p s hdec hp
    have hdec' : gh = p ++ none :: s := hdec
    subst hdec'
    simp [cy_ecm_register_event_callback, h2, register_scan_first_free p s cb hp]
  · intro cb habs
    simp [cy_ecm_deregister_event_callback, h2, deregister_scan_absent _ _ habs]

/-- Witness for C7: full registry drops a fourth registration; a registry
with a free middle slot gets it filled; deregistering an absent callback is
a no-op. -/
theorem callback_registry_spec_witness :
    (∀ x ∈ ({ gActive with ecm_event_handler := [some 1, some 2, some 3] }
        : EcmGlobal).ecm_event_handler, x ≠ none) ∧
    cy_ecm_register_event_callback
        { gActive with ecm_event_handler := [some 1, some 2, some 3] }
        (some objIdle) (some 9) true
      = (CyRslt.CY_RSLT_SUCCESS,
         { gActive with ecm_event_handler := [some 1, some 2, some 3] }) ∧
    cy_ecm_deregister_event_callback
        { gActive with ecm_event_handler := [some 1, some 2, some 3] }
        (some objIdle) (some 9) true
      = (CyRslt.CY_RSLT_SUCCESS,
         { gActive with ecm_event_handler := [some 1, some 2, some 3] }) :=
  ⟨by decide,
    (callback_registry_spec
      { gActive with ecm_event_handler := [some 1, some 2, some 3] }
      objIdle rfl rfl).1 9 (by decide),
    (callback_registry_spec
      { gActive with ecm_event_handler := [some 1, some 2, some 3] }
      objIdle rfl rfl).2.2 9 (by decide)⟩

/-- C3: `cy_ecm_connect` on a handle with the cached link flag down and a
PHY that never reports link-up exhausts the full 10 s poll ceiling (100
polls at 100 ms) and returns `CY_RSLT_ECM_ERROR` (the spec's `LinkTimeout`),
with the global state — in particular `is_ethernet_initiated` — completely
unchanged, while the network-stack attach and the IP-change subscription of
the same call are left in place (no `cy_network_remove_nw_interface`). -/
theorem connect_link_timeout (g : EcmGlobal) (obj : EcmObject)
    (phy : Nat → Option Nat) (h1 : g.is_ecm_initialized = true)
    (h2 : obj.isobjinitialized = true) (h3 : obj.network_up = false)
    (h4 : getIdx g.is_ethernet_link_up obj.eth_idx = false)
    (h5 : ∀ j, phy j ≠ some 1) (ipr : NwIpUpResult)
    (ip_at : Nat → Option Nat) (fuel : Nat) :
    cy_ecm_connect g (some obj) true none true phy ipr ip_at fuel
      = some (CyRslt.CY_RSLT_ECM_ERROR, g, some { obj with iface_context := true },
          [NwCall.cy_network_add_nw_interface, NwCall.cy_network_register_ip_change_cb],
          none)
    ∧ linkWaitLoop phy 0 0 LINK_WAIT_FUEL = (MAX_WAIT_ETHERNET_PHY_STATUS, false) := by
  have hlw : linkWaitLoop phy 0 0 LINK_WAIT_FUEL = (MAX_WAIT_ETHERNET_PHY_STATUS, false) :=
    linkWaitLoop_never_up phy h5 LINK_WAIT_FUEL 0 0 (by decide) (by decide) (by decide)
  refine ⟨?_, hlw⟩
  simp [cy_ecm_connect, h1, h2, h3, cy_ecm_connect_after_attach, h4, hlw]

/-- Witness for C3: concrete state, PHY stuck at link-down. -/
theorem connect_link_timeout_witness :
    gLinkDown.is_ecm_initialized = true ∧ objIdle.isobjinitialized = true ∧
    objIdle.network_up = false ∧ getIdx gLinkDown.is_ethernet_link_up objIdle.eth_idx = false ∧
    cy_ecm_connect gLinkDown (some objIdle) true none true (fun _ => some 0)
        NwIpUpResult.success (fun _ => none) 0
      = some (CyRslt.CY_RSLT_ECM_ERROR, gLinkDown, some { objIdle with iface_context := true },
          [NwCall.cy_network_add_nw_interface, NwCall.cy_network_register_ip_change_cb],
          none) :=
  ⟨rfl, rfl, rfl, by decide,
    (connect_link_timeout gLinkDown objIdle (fun _ => some 0) rfl rfl rfl (by decide)
      (fun j => by simp) NwIpUpResult.success (fun _ => none) 0).1⟩

/-- C10: if the PHY never reports link-up, `cy_ecm_get_link_status` exhausts
the same 10 s / 100 ms poll ceiling and returns success with `*status`
written `false`, whereas `cy_ecm_get_link_speed` returns
`CY_RSLT_ECM_ERROR` after the same ceiling without writing its outputs. -/
theorem get_link_status_vs_speed_never_up (g : EcmGlobal) (obj : EcmObject)
    (phy : Nat → Option Nat) (speed_at : Nat → Option (Nat × Nat))
    (h1 : g.is_ecm_initialized = true) (h5 : ∀ j, phy j ≠ some 1) :
    cy_ecm_get_link_status g (some obj) true true phy
      = (CyRslt.CY_RSLT_SUCCESS, some false) ∧
    cy_ecm_get_link_speed g (some obj) true true phy speed_at
      = (CyRslt.CY_RSLT_ECM_ERROR, none) := by
  have hlw : linkWaitLoop phy 0 0 LINK_WAIT_FUEL = (MAX_WAIT_ETHERNET_PHY_STATUS, false) :=
    linkWaitLoop_never_up phy h5 LINK_WAIT_FUEL 0 0 (by decide) (by decide) (by decide)
  have hls := linkSpeedLoop_none phy speed_at h5 LINK_WAIT_FUEL 0 0
  constructor
  · simp [cy_ecm_get_link_status, h1, hlw]
  · simp [cy_ecm_get_link_speed, h1, hls]

/-- Witness for C10 with the PHY stuck at link-down. -/
theorem get_link_status_vs_speed_never_up_witness :
    gActive.is_ecm_initialized = true ∧
    cy_ecm_get_link_status gActive (some objIdle) true true (fun _ => some 0)
      = (CyRslt.CY_RSLT_SUCCESS, some false) ∧
    cy_ecm_get_link_speed gActive (some objIdle) true true (fun _ => some 0)
        (fun _ => some (1, 100))
      = (CyRslt.CY_RSLT_ECM_ERROR, none) :=
  ⟨rfl,
    (get_link_status_vs_speed_never_up gActive objIdle (fun _ => some 0)
      (fun _ => some (1, 100)) rfl (fun j => by simp)).1,
    (get_link_status_vs_speed_never_up gActive objIdle (fun _ => some 0)
      (fun _ => some (1, 100)) rfl (fun j => by simp)).2⟩

/-- C1 (refuting the bounded-wait claim): on a connect call that reaches the
DHCP address wait (link already up, `cy_network_ip_up` succeeded) with a
network stack that never reports an assigned address, `cy_ecm_connect`
never returns, for any number of loop iterations: the `while(true)` wait of
cy_ecm.c:988-1010 only exits when `cy_network_get_ip_address` succeeds, and
the timeout test of cy_ecm.c:1011 sits after the loop, so the claimed 60 s
ceiling, the ip-down/detach rollback and the `CY_RSLT_ECM_DHCP_TIMEOUT`
return are unreachable while no address arrives. -/
theorem connect_dhcp_wait_never_returns (g : EcmGlobal) (obj : EcmObject)
    (phy : Nat → Option Nat) (h1 : g.is_ecm_initialized = true)
    (h2 : obj.isobjinitialized = true) (h3 : obj.network_up = false)
    (h4 : getIdx g.is_ethernet_link_up obj.eth_idx = true) :
    ∀ fuel, cy_ecm_connect g (some obj) true none true phy NwIpUpResult.success
        (fun _ => none) fuel = none := by
  intro fuel
  have hd := dhcpWaitLoop_none (fun _ => none) (fun j => rfl) fuel 0 0
  simp [cy_ecm_connect, h1, h2, h3, cy_ecm_connect_after_attach, h4,
    cy_ecm_connect_ip_up, hd]

/-- Witness for C1's divergence theorem: after 100000 polls (1000 simulated
seconds, far past the claimed 60 s ceiling) the call still has not returned. -/
theorem connect_dhcp_wait_never_returns_witness :
    gActive.is_ecm_initialized = true ∧ objIdle.isobjinitialized = true ∧
    objIdle.network_up = false ∧ getIdx gActive.is_ethernet_link_up objIdle.eth_idx = true ∧
    cy_ecm_connect gActive (some objIdle) true none true (fun _ => some 1)
        NwIpUpResult.success (fun _ => none) 100000 = none :=
  ⟨rfl, rfl, rfl, by decide,
    connect_dhcp_wait_never_returns gActive objIdle (fun _ => some 1)
      rfl rfl rfl (by decide) 100000⟩

/-- The global state `cy_ecm_ethif_init` is entered with in C2's failing
run: manager active, no interface initiated yet, monitor thread not yet
created. -/
def gEthifReady : EcmGlobal :=
  { is_ecm_initialized := true, is_tcp_initialized := true,
    is_ethernet_initiated := (false, false), is_ethernet_link_up := (false, false),
    is_ecm_thread_created := 0, ecm_event_handler := [none, none, none] }

/-- C2 (refuting the full-rollback claim for the thread-failure path):
when every step of `cy_ecm_ethif_init` succeeds except the final
`cy_rtos_create_thread`, the call returns `CY_RSLT_ECM_ERROR` with the
handle rolled back (freed, no live handle produced) but with
`is_ethernet_initiated[0]` left `true`: the `exit:` path (cy_ecm.c:544-554)
never clears the flag set at cy_ecm.c:512. -/
theorem ethif_init_thread_failure_leaves_initiated :
    cy_ecm_ethif_init gEthifReady 0 true (some phyCbAll) true true true true true true false
      = (CyRslt.CY_RSLT_ECM_ERROR,
         { gEthifReady with is_ethernet_initiated := (true, false) }, false)
    ∧ (cy_ecm_ethif_init gEthifReady 0 true (some phyCbAll) true true true true true true
        false).2.1.is_ethernet_initiated.1 = true := by
  constructor
  · decide
  · decide
